import Mathlib

/-!
Shallow embedding of `src/main.py` (ragSocket): a FastAPI websocket endpoint
that relays client audio to the Deepgram streaming STT service and relays
transcript events back to the client.

The embedding models:
* JSON values as produced by `json.loads` (inductive `Json`);
* Python attribute/index access with its exception behaviour (`pyGet`,
  `pyIndex0`, `pyStr`) over an explicit exception type `PyExc`;
* the relay coroutine `deepgram_to_client_receiver` (lines 31-50) as a
  function from the stream of upstream websocket messages to the list of
  notifications sent to the client, together with whether its `except`
  clause fired;
* the endpoint `websocket_endpoint` (lines 53-119) as a function from a
  script of external events (client text frames, upstream connect outcomes,
  race outcomes of `asyncio.wait`, close outcomes) to a trace of actions
  and a connection outcome.
-/

/-- JSON values, the possible results of Python's `json.loads`. -/
inductive Json where
  | null
  | bool (b : Bool)
  | num (n : Int)
  | str (s : String)
  | arr (elems : List Json)
  | obj (fields : List (String × Json))

/-- Python exceptions relevant to `src/main.py`, per the error taxonomy:
connect failure, send failure, decode failure, transport disconnect,
attribute/index/key/type errors from dynamic access, and a catch-all. -/
inductive PyExc where
  | connectError
  | sendError
  | jsonDecodeError
  | wsDisconnect
  | connectionResetError
  | attributeError
  | indexError
  | keyError
  | typeError
  | otherError
deriving DecidableEq

/-- Python `x.get(key, default)`: requires `x` to be a dict (otherwise
`AttributeError`); returns the value bound to `key`, or `default` when the
key is absent. -/
def pyGet (j : Json) (key : String) (default : Json) : Except PyExc Json :=
  match j with
  | Json.obj fields =>
    match fields.lookup key with
    | some v => Except.ok v
    | none => Except.ok default
  | _ => Except.error PyExc.attributeError

/-- Python `x[0]`: first element of a list (`IndexError` when empty), first
character of a string, `KeyError` on a dict whose keys are strings,
`TypeError` on any other JSON value. -/
def pyIndex0 (j : Json) : Except PyExc Json :=
  match j with
  | Json.arr (x :: _) => Except.ok x
  | Json.arr [] => Except.error PyExc.indexError
  | Json.str s =>
    match s.data with
    | [] => Except.error PyExc.indexError
    | c :: _ => Except.ok (Json.str (String.mk [c]))
  | Json.obj _ => Except.error PyExc.keyError
  | _ => Except.error PyExc.typeError

/-- Accessing `.strip()` requires the value to be a string; any other value
raises `AttributeError`. -/
def pyStr (j : Json) : Except PyExc String :=
  match j with
  | Json.str s => Except.ok s
  | _ => Except.error PyExc.attributeError

/-- Whitespace characters removed by Python's `str.strip()` (ASCII subset:
space, tab, newline, carriage return, vertical tab, form feed). -/
def isPySpace (c : Char) : Bool :=
  c == ' ' || c == '\t' || c == '\n' || c == '\r' ||
    c == Char.ofNat 11 || c == Char.ofNat 12

/-- Python `s.strip()`: drop leading and trailing whitespace. -/
def pyStrip (s : String) : String :=
  String.mk (((s.data.dropWhile isPySpace).reverse.dropWhile isPySpace).reverse)

/-- The payload of the `send_json` call at lines 41-45: the `"text"` field and
the `"isFinal"` field (the upstream `is_final` value is forwarded verbatim,
whatever JSON value it is, defaulting to `false`). -/
structure TranscriptNotif where
  text : String
  isFinal : Json

/-- Line 37 of `src/main.py`:
`response.get("channel", {}).get("alternatives", [{}])[0].get("transcript", "")`. -/
def extractTranscript (response : Json) : Except PyExc Json :=
  match pyGet response "channel" (Json.obj []) with
  | Except.error e => Except.error e
  | Except.ok channel =>
    match pyGet channel "alternatives" (Json.arr [Json.obj []]) with
    | Except.error e => Except.error e
    | Except.ok alternatives =>
      match pyIndex0 alternatives with
      | Except.error e => Except.error e
      | Except.ok first => pyGet first "transcript" (Json.str "")

/-- Lines 37-45, the handling of one decoded TEXT message: compute the
transcript (line 37), read `is_final` (line 38), call `.strip()` (line 40,
which requires a string), and decide whether a notification is sent.
Returns `none` when the trimmed transcript is empty (no send), `some n`
when the notification `n` is sent, or the exception raised. -/
def processText (response : Json) : Except PyExc (Option TranscriptNotif) :=
  match extractTranscript response with
  | Except.error e => Except.error e
  | Except.ok tJson =>
    match pyGet response "is_final" (Json.bool false) with
    | Except.error e => Except.error e
    | Except.ok isFinal =>
      match pyStr tJson with
      | Except.error e => Except.error e
      | Except.ok transcript =>
        if (pyStrip transcript).isEmpty then Except.ok none
        else Except.ok (some ⟨transcript, isFinal⟩)

/-- The notification produced by one decoded upstream message, if any
(`none` both when the transcript strips to empty and when an exception is
raised before the send). -/
def emitOf (response : Json) : Option TranscriptNotif :=
  match processText response with
  | Except.ok o => o
  | Except.error _ => none

/-- Whether an `Except` result is a success. -/
def exOk {α : Type} (x : Except PyExc α) : Bool :=
  match x with
  | Except.ok _ => true
  | Except.error _ => false

/-- One message yielded by `async for msg in dg_ws`. A TEXT frame is
modelled by the outcome of `json.loads(msg.data)` (external library call:
either the decoded value or a raised decode error); CLOSED and ERROR frames
break the loop; any other frame type falls through both branches. -/
inductive WSMsg where
  | text (payload : Except PyExc Json)
  | closed
  | error
  | other

/-- How the relay's iteration over the upstream stream ended. -/
inductive RelayExit where
  | streamEnd
  | closeFrame
  | raised (e : PyExc)
deriving DecidableEq

/-- The body of `deepgram_to_client_receiver` (the `async for` loop at lines
34-48), before the surrounding `try/except` is applied. `sendFail n` is the
outcome of the `n`-th `client_ws.send_json` call (`none` = success, `some e`
= the send raises `e`). Returns the notifications successfully sent from
this point on, and how the iteration ended. -/
def relayBody (sendFail : Nat → Option PyExc) : List WSMsg → Nat → List TranscriptNotif × RelayExit
  | [], _ => ([], RelayExit.streamEnd)
  | WSMsg.closed :: _, _ => ([], RelayExit.closeFrame)
  | WSMsg.error :: _, _ => ([], RelayExit.closeFrame)
  | WSMsg.other :: rest, n => relayBody sendFail rest n
  | WSMsg.text (Except.error e) :: _, _ => ([], RelayExit.raised e)
  | WSMsg.text (Except.ok response) :: rest, n =>
    match processText response with
    | Except.error e => ([], RelayExit.raised e)
    | Except.ok none => relayBody sendFail rest n
    | Except.ok (some notif) =>
      match sendFail n with
      | some e => ([], RelayExit.raised e)
      | none =>
        let r := relayBody sendFail rest (n + 1)
        (notif :: r.1, r.2)

/-- Result of the relay coroutine: the notifications sent to the client, and
whether the `except Exception` clause at line 49 ran (and logged). -/
structure RelayResult where
  emitted : List TranscriptNotif
  exceptionCaught : Bool

/-- `deepgram_to_client_receiver` (lines 31-50): the `async for` body wrapped
in `try/except Exception`: a raised exception is caught and logged, and the
coroutine returns normally in every case. -/
def deepgram_to_client_receiver (sendFail : Nat → Option PyExc) (msgs : List WSMsg) : RelayResult :=
  let r := relayBody sendFail msgs 0
  match r.2 with
  | RelayExit.raised _ => ⟨r.1, true⟩
  | _ => ⟨r.1, false⟩

/-- Primitive actions performed by `websocket_endpoint`, recorded as a trace.
`sessionStart`/`sessionEnd` bracket one utterance session (steps 2-5 of the
endpoint); the others are the externally visible calls made inside it. -/
inductive Act where
  | sessionStart
  | sessionEnd
  | connectUpstream
  | startRelay
  | createRecvTask
  | sendUpstream (b : List Nat)
  | cancelRecv
  | cancelRelay
  | closeUpstreamCall
  | closeHttpCall
deriving DecidableEq

/-- asyncio task states relevant to the endpoint. -/
inductive TaskState where
  | pending
  | completed
  | cancelled
deriving DecidableEq

/-- `task.cancel()`: requests cancellation of a pending task; on a task that
has already completed (or was already cancelled) it is a no-op. -/
def taskCancel (s : TaskState) : TaskState :=
  match s with
  | TaskState.pending => TaskState.cancelled
  | s => s

/-- How the forwarding loop (lines 90-102) ended: the `while` condition saw
the relay task finished, or an exception propagated out of the loop. -/
inductive SessionEnd where
  | relayFinished
  | raised (e : PyExc)
deriving DecidableEq

/-- Scheduler outcomes of the race at lines 91-102, one per loop iteration
(single-threaded cooperative concurrency: each `asyncio.wait` resolves in
exactly one of these ways):
* `frameFirst b ok`: `client_data_task` completes with frame `b` while the
  relay is still pending; `ok` is whether `dg_ws.send_bytes` succeeds;
* `bothDone b ok`: both tasks complete in the same wait;
* `relayFirst`: the relay finishes while the receive is still pending;
* `recvRaised e`: `client_data_task` completes with exception `e` (re-raised
  by `client_data_task.result()` at line 99);
* `relayDoneAtCheck`: the relay is observed finished at the `while` test
  before a new receive task is created. -/
inductive RaceEv where
  | frameFirst (b : List Nat) (sendOk : Bool)
  | bothDone (b : List Nat) (sendOk : Bool)
  | relayFirst
  | recvRaised (e : PyExc)
  | relayDoneAtCheck

/-- Result of the forwarding loop: the frames obtained from completed client
receive tasks, the action trace, how the loop ended, whether the relay task
was finished when the loop exited, and the final state of the receive task
of the last executed iteration (`none` when no iteration ran). -/
structure LoopRun where
  received : List (List Nat)
  acts : List Act
  ending : SessionEnd
  relayDone : Bool
  lastRecv : Option TaskState

/-- The forwarding loop at lines 90-102:
`while not receiver_task.done():` create `client_data_task`; wait for the
first of `{client_data_task, receiver_task}`; if the client task completed,
forward its frame with `dg_ws.send_bytes` (which may raise); if it is still
pending, cancel it. -/
def runLoop : List RaceEv → LoopRun
  | [] => ⟨[], [], SessionEnd.relayFinished, true, none⟩
  | RaceEv.relayDoneAtCheck :: _ => ⟨[], [], SessionEnd.relayFinished, true, none⟩
  | RaceEv.frameFirst b true :: rest =>
    let r := runLoop rest
    ⟨b :: r.received, Act.createRecvTask :: Act.sendUpstream b :: r.acts, r.ending, r.relayDone,
      match r.lastRecv with
      | none => some TaskState.completed
      | some s => some s⟩
  | RaceEv.frameFirst b false :: _ =>
    ⟨[b], [Act.createRecvTask], SessionEnd.raised PyExc.sendError, false, some TaskState.completed⟩
  | RaceEv.bothDone b true :: _ =>
    ⟨[b], [Act.createRecvTask, Act.sendUpstream b], SessionEnd.relayFinished, true,
      some TaskState.completed⟩
  | RaceEv.bothDone b false :: _ =>
    ⟨[b], [Act.createRecvTask], SessionEnd.raised PyExc.sendError, true, some TaskState.completed⟩
  | RaceEv.relayFirst :: _ =>
    ⟨[], [Act.createRecvTask, Act.cancelRecv], SessionEnd.relayFinished, true,
      some (taskCancel TaskState.pending)⟩
  | RaceEv.recvRaised e :: _ =>
    ⟨[], [Act.createRecvTask], SessionEnd.raised e, false, some TaskState.completed⟩

/-- The frames successfully passed to `dg_ws.send_bytes`, read off a trace. -/
def sentUpstream (acts : List Act) : List (List Nat) :=
  acts.filterMap fun a =>
    match a with
    | Act.sendUpstream b => some b
    | _ => none

/-- The `finally` block at lines 104-112. Arguments: whether a relay task was
started in this session and whether it was done; whether `dg_ws` is non-None
and whether it was already closed; the outcomes of `dg_ws.close()` and
`aiohttp_session.close()` (`some e` = the await raises `e`). The aiohttp
session is freshly created at line 73 and never closed before the `finally`,
so its `closed` guard is always false and its close is always attempted when
reached. A raise in an earlier statement of the `finally` skips the later
statements and propagates (replacing any in-flight exception).
Note: `'receiver_task' in locals()` is modelled as "a relay task was started
in the current session"; a task left over from a previous session of the
same client is always finished by teardown time, so its `done()` guard makes
the two readings act identically. -/
def teardown (relayStarted relayDone dgExists dgClosed : Bool)
    (closeUp closeHttp : Option PyExc) : List Act × Option PyExc :=
  let cancelActs := if relayStarted && !relayDone then [Act.cancelRelay] else []
  if dgExists && !dgClosed then
    match closeUp with
    | some e => (cancelActs ++ [Act.closeUpstreamCall], some e)
    | none =>
      match closeHttp with
      | some e => (cancelActs ++ [Act.closeUpstreamCall, Act.closeHttpCall], some e)
      | none => (cancelActs ++ [Act.closeUpstreamCall, Act.closeHttpCall], none)
  else
    match closeHttp with
    | some e => (cancelActs ++ [Act.closeHttpCall], some e)
    | none => (cancelActs ++ [Act.closeHttpCall], none)

/-- The external outcomes scripting one utterance session: the result of
`aiohttp_session.ws_connect` (line 84), the race outcomes of the forwarding
loop, whether `dg_ws.closed` already holds when the `finally` runs, and the
outcomes of the two closes in the `finally`. -/
structure SessionScript where
  connect : Option PyExc
  race : List RaceEv
  upstreamClosedAtTeardown : Bool
  closeUpstream : Option PyExc
  closeHttp : Option PyExc

/-- Steps 2-5 of the endpoint (lines 72-112) without the session brackets:
create the aiohttp session, try `ws_connect`; on success start the relay and
run the forwarding loop; in all cases run the `finally`. Returns the action
trace and the exception escaping the `try/finally`, if any. -/
def sessionBody (scr : SessionScript) : List Act × Option PyExc :=
  match scr.connect with
  | some e =>
    let td := teardown false true false false scr.closeUpstream scr.closeHttp
    (Act.connectUpstream :: td.1,
      match td.2 with
      | some e2 => some e2
      | none => some e)
  | none =>
    let r := runLoop scr.race
    let td := teardown true r.relayDone true scr.upstreamClosedAtTeardown
      scr.closeUpstream scr.closeHttp
    (Act.connectUpstream :: Act.startRelay :: (r.acts ++ td.1),
      match td.2 with
      | some e2 => some e2
      | none =>
        match r.ending with
        | SessionEnd.raised e => some e
        | _ => none)

/-- One utterance session, bracketed by `sessionStart`/`sessionEnd` markers
(control enters the session at line 69 and leaves it after line 112). -/
def runSession (scr : SessionScript) : List Act × Option PyExc :=
  let b := sessionBody scr
  (Act.sessionStart :: (b.1 ++ [Act.sessionEnd]), b.2)

/-- One outer-loop event: `websocket.receive_text()` (line 63) either returns
a text frame — modelled by the outcome of `json.loads(message)` on it — or
raises `WebSocketDisconnect`. A `SessionScript` is attached to every text
frame; it is consulted only when the frame is a start signal. -/
inductive OuterEv where
  | text (payload : Except PyExc Json) (scr : SessionScript)
  | disconnected

/-- How the connection handler returns: the client disconnected (caught at
line 114), some other exception was caught at line 116, or the event script
was exhausted with the loop still waiting for the next client message. -/
inductive ConnOutcome where
  | clientDisconnect
  | errorCaught (e : PyExc)
  | stillWaiting
deriving DecidableEq

/-- `data.get("action") != "start_transcription"` at line 66, on the fields
of a decoded JSON object: true exactly when the `"action"` key is bound to
the string `"start_transcription"`. -/
def actionIsStart (fields : List (String × Json)) : Bool :=
  match fields.lookup "action" with
  | some (Json.str a) => a == "start_transcription"
  | _ => false

/-- `websocket_endpoint` (lines 53-119): the outer `while True` loop reading
client text frames, dispatching one session per start signal, wrapped in the
outer `try/except` (lines 59, 114-117). An exception escaping a session's
`try/finally` propagates out of the `while` loop: `WebSocketDisconnect` and
`ConnectionResetError` are caught as a disconnect, everything else by
`except Exception`; either way the handler returns and the connection ends. -/
def websocket_endpoint : List OuterEv → List Act × ConnOutcome
  | [] => ([], ConnOutcome.stillWaiting)
  | OuterEv.disconnected :: _ => ([], ConnOutcome.clientDisconnect)
  | OuterEv.text (Except.error e) _ :: _ => ([], ConnOutcome.errorCaught e)
  | OuterEv.text (Except.ok j) scr :: rest =>
    match j with
    | Json.obj fields =>
      if actionIsStart fields then
        let s := runSession scr
        match s.2 with
        | some e =>
          (s.1, if e == PyExc.wsDisconnect || e == PyExc.connectionResetError then
            ConnOutcome.clientDisconnect else ConnOutcome.errorCaught e)
        | none =>
          let r := websocket_endpoint rest
          (s.1 ++ r.1, r.2)
      else websocket_endpoint rest
    | _ => ([], ConnOutcome.errorCaught PyExc.attributeError)

/-- Checks that session markers in a trace are well bracketed with nesting
depth at most one: no `sessionStart` while a session is open, no
`sessionEnd` outside one. -/
def sessionDepthOk : List Act → Bool → Bool
  | [], _ => true
  | Act.sessionStart :: rest, inS => if inS then false else sessionDepthOk rest true
  | Act.sessionEnd :: rest, inS => if inS then sessionDepthOk rest false else false
  | _ :: rest, inS => sessionDepthOk rest inS

/-- The client frame `{"action": "start_transcription"}`. -/
def startFrame : Json :=
  Json.obj [("action", Json.str "start_transcription")]

/-- A session script in which everything succeeds and the upstream service
ends the stream before any client frame arrives. -/
def quietScript : SessionScript :=
  ⟨none, [], false, none, none⟩

/-- A well-formed upstream transcript message carrying the text
`"hello world"` with `is_final` true. -/
def helloResp : Json :=
  Json.obj [("channel", Json.obj [("alternatives",
    Json.arr [Json.obj [("transcript", Json.str "hello world")]])]),
    ("is_final", Json.bool true)]

/-- C1: the claim says a failure inside an utterance session is caught at the
session boundary and the outer client loop keeps running, a subsequent
start_transcription still being processed. The code has no `except` on the
inner `try` (lines 74-112), so the failure propagates out of `while True`
and is caught only by the connection-level handler: on a script where the
first session's `ws_connect` raises and a second start signal follows, the
handler returns with the error caught at the connection boundary, the
teardown trace shows exactly one session, and the second start signal is
never read. -/
theorem C1_connect_failure_ends_client_loop :
    websocket_endpoint
      [OuterEv.text (Except.ok startFrame) ⟨some PyExc.connectError, [], false, none, none⟩,
       OuterEv.text (Except.ok startFrame) quietScript] =
      ([Act.sessionStart, Act.connectUpstream, Act.closeHttpCall, Act.sessionEnd],
       ConnOutcome.errorCaught PyExc.connectError)
    ∧ (websocket_endpoint
        [OuterEv.text (Except.ok startFrame) ⟨some PyExc.connectError, [], false, none, none⟩,
         OuterEv.text (Except.ok startFrame) quietScript]).1.count Act.sessionStart = 1 :=
  ⟨rfl, rfl⟩

/-- C2 counterexample: the claim says a malformed upstream payload is logged
and the loop continues, subsequent valid messages still being processed. On
the stream [malformed, valid "hello world" message] the relay emits nothing
at all and its `except` clause fires — although the second message alone
would have produced a notification — because the `try/except` at lines
33-50 wraps the whole `async for` loop, not one iteration. -/
theorem C2_counterexample :
    deepgram_to_client_receiver (fun _ => none)
      [WSMsg.text (Except.error PyExc.jsonDecodeError), WSMsg.text (Except.ok helloResp)] =
      ⟨[], true⟩
    ∧ processText helloResp = Except.ok (some ⟨"hello world", Json.bool true⟩) :=
  ⟨rfl, rfl⟩

/-- C2 amended: a malformed upstream payload makes `json.loads` raise out of
the iteration; the relay's outer `except` catches and logs it and the relay
returns normally with whatever had been emitted so far — the remaining
messages are never processed and the session ends. -/
theorem C2_amended_malformed_terminates_relay :
    ∀ (sendFail : Nat → Option PyExc) (rest : List WSMsg) (n : Nat),
      relayBody sendFail (WSMsg.text (Except.error PyExc.jsonDecodeError) :: rest) n =
        ([], RelayExit.raised PyExc.jsonDecodeError)
      ∧ deepgram_to_client_receiver sendFail
          (WSMsg.text (Except.error PyExc.jsonDecodeError) :: rest) = ⟨[], true⟩ :=
  fun _ _ _ => ⟨rfl, rfl⟩

/-- C3 counterexample: the claim says each teardown step runs independently
of whether the prior steps succeeded. In a session where the forwarding
loop ends normally and `dg_ws.close()` raises, the `aiohttp_session.close()`
step is skipped entirely (no `closeHttpCall` in the trace) and the exception
escapes the `finally`: the statements of a `finally` block are sequential,
not failure-isolated. -/
theorem C3_counterexample :
    runSession ⟨none, [], false, some PyExc.otherError, none⟩ =
      ([Act.sessionStart, Act.connectUpstream, Act.startRelay,
        Act.closeUpstreamCall, Act.sessionEnd], some PyExc.otherError)
    ∧ Act.closeHttpCall ∉ (runSession ⟨none, [], false, some PyExc.otherError, none⟩).1 :=
  ⟨rfl, by decide⟩

/-- C3 amended: on loop exit the `finally` performs, in this order: cancel
the relay task if not finished, close the upstream connection if open, close
the aiohttp session — each step guarded as in the code — but the steps are
not failure-independent: when closing the upstream connection raises, the
aiohttp-session close is skipped and the exception propagates. -/
theorem C3_amended_teardown_order :
    (∀ (rs rd dgc : Bool),
      teardown rs rd true dgc none none =
        ((if rs && !rd then [Act.cancelRelay] else []) ++
          (if !dgc then [Act.closeUpstreamCall, Act.closeHttpCall] else [Act.closeHttpCall]),
         none))
    ∧ (∀ (rs rd : Bool) (e : PyExc),
        teardown rs rd true false (some e) none =
          ((if rs && !rd then [Act.cancelRelay] else []) ++ [Act.closeUpstreamCall], some e)) := by
  refine ⟨fun rs rd dgc => ?_, fun rs rd e => ?_⟩
  · cases dgc <;> rfl
  · rfl

/-- C4 counterexample: the claim says any client text frame that is not a
start_transcription action — including frames that are not valid JSON — is
ignored while no session is active. A frame on which `json.loads` raises
propagates out of the outer loop and is caught by `except Exception` at
line 116: the handler returns and the connection ends, so a following start
signal is never processed. -/
theorem C4_counterexample :
    websocket_endpoint
      [OuterEv.text (Except.error PyExc.jsonDecodeError) quietScript,
       OuterEv.text (Except.ok startFrame) quietScript] =
      ([], ConnOutcome.errorCaught PyExc.jsonDecodeError) :=
  rfl

/-- C4 amended: a client text frame that decodes to a JSON object whose
`"action"` value is not the string `"start_transcription"` is ignored and
the loop continues with the next message; frames that are not valid JSON
(or not JSON objects) instead raise and terminate the connection. -/
theorem C4_amended_non_start_object_ignored :
    ∀ (fields : List (String × Json)) (scr : SessionScript) (rest : List OuterEv),
      actionIsStart fields = false →
      websocket_endpoint (OuterEv.text (Except.ok (Json.obj fields)) scr :: rest) =
        websocket_endpoint rest := by
  intro fields scr rest h
  simp [websocket_endpoint, h]

/-- C4 witness: the amended theorem applied to the concrete non-start frame
`{"action": "stop_transcription"}`. -/
theorem C4_amended_witness :
    websocket_endpoint
      [OuterEv.text (Except.ok (Json.obj [("action", Json.str "stop_transcription")]))
        quietScript] = websocket_endpoint [] :=
  C4_amended_non_start_object_ignored [("action", Json.str "stop_transcription")]
    quietScript [] rfl

/-- On a dict, `x.get(key, default)` always succeeds. -/
theorem pyGet_obj_ok (fields : List (String × Json)) (key : String) (d : Json) :
    ∃ v, pyGet (Json.obj fields) key d = Except.ok v := by
  unfold pyGet
  rcases hl : fields.lookup key with _ | v
  · exact ⟨d, by simp [hl]⟩
  · exact ⟨v, by simp [hl]⟩

/-- On a stream of TEXT messages none of which raises, with all client sends
succeeding, the relay body emits exactly the per-message notifications in
stream order and ends with the stream. -/
theorem relayBody_ok_stream (msgs : List Json) (n : Nat)
    (h : ∀ j ∈ msgs, exOk (processText j) = true) :
    relayBody (fun _ => none) (msgs.map fun j => WSMsg.text (Except.ok j)) n =
      (msgs.filterMap emitOf, RelayExit.streamEnd) := by
  induction msgs generalizing n with
  | nil => rfl
  | cons j msgs ih =>
    have hj := h j (List.mem_cons_self j msgs)
    have hrest : ∀ x ∈ msgs, exOk (processText x) = true :=
      fun x hx => h x (List.mem_cons_of_mem j hx)
    rcases hp : processText j with e | o
    · rw [hp] at hj; simp [exOk] at hj
    · rcases o with _ | notif
      · simp [relayBody, hp, List.filterMap_cons, emitOf, ih n hrest]
      · simp [relayBody, hp, List.filterMap_cons, emitOf, ih (n + 1) hrest]

/-- A well-formed upstream message whose transcript is whitespace only. -/
def wsOnlyResp : Json :=
  Json.obj [("channel", Json.obj [("alternatives",
    Json.arr [Json.obj [("transcript", Json.str "   ")]])]),
    ("is_final", Json.bool false)]

/-- C5: on a stream of decoded upstream text messages on which no exception
is raised (and with the client channel accepting every send), the relay
emits exactly the notifications `emitOf` of the messages, in arrival order,
with no exception logged; and per message, when the extracted transcript is
the string `t` and the `is_final` lookup gives `f`, a notification is
produced iff the trimmed transcript is non-empty, and it is exactly
`{"type": "stt_transcript", "text": t, "isFinal": f}` (modelled as
`⟨t, f⟩`). -/
theorem C5_transcript_emission :
    ∀ (msgs : List Json),
      ((∀ j ∈ msgs, exOk (processText j) = true) →
        deepgram_to_client_receiver (fun _ => none)
          (msgs.map fun j => WSMsg.text (Except.ok j)) =
          ⟨msgs.filterMap emitOf, false⟩)
    ∧ ∀ (response : Json) (t : String) (f : Json),
        extractTranscript response = Except.ok (Json.str t) →
        pyGet response "is_final" (Json.bool false) = Except.ok f →
        emitOf response = if (pyStrip t).isEmpty then none else some ⟨t, f⟩ := by
  intro msgs
  constructor
  · intro h
    simp [deepgram_to_client_receiver, relayBody_ok_stream msgs 0 h]
  · intro response t f h1 h2
    by_cases hc : (pyStrip t).isEmpty <;>
      simp [emitOf, processText, h1, h2, pyStr, hc]

/-- C5 witness: the theorem applied to the concrete stream
[hello-world message, whitespace-only message]: exactly one notification,
carrying the text and the finality flag of the first message. -/
theorem C5_transcript_emission_witness :
    deepgram_to_client_receiver (fun _ => none)
      ([helloResp, wsOnlyResp].map fun j => WSMsg.text (Except.ok j)) =
      ⟨[⟨"hello world", Json.bool true⟩], false⟩ :=
  ((C5_transcript_emission [helloResp, wsOnlyResp]).1 (by decide)).trans rfl

/-- C9: however the relay body's iteration ends — an exception raised during
iteration (decode failure, shape error, client-send failure) or a
close/error frame or the end of the stream — `deepgram_to_client_receiver`
returns normally: a raised exception is caught (the except branch fires),
and close/error termination is a normal break; no exception propagates to
the caller. -/
theorem C9_relay_never_raises :
    ∀ (sendFail : Nat → Option PyExc) (msgs : List WSMsg),
      (∀ (l : List TranscriptNotif) (e : PyExc),
        relayBody sendFail msgs 0 = (l, RelayExit.raised e) →
        deepgram_to_client_receiver sendFail msgs = ⟨l, true⟩)
      ∧ (∀ (l : List TranscriptNotif),
          relayBody sendFail msgs 0 = (l, RelayExit.closeFrame) →
          deepgram_to_client_receiver sendFail msgs = ⟨l, false⟩)
      ∧ (∀ (l : List TranscriptNotif),
          relayBody sendFail msgs 0 = (l, RelayExit.streamEnd) →
          deepgram_to_client_receiver sendFail msgs = ⟨l, false⟩) := by
  intro sendFail msgs
  refine ⟨fun l e h => ?_, fun l h => ?_, fun l h => ?_⟩ <;>
    simp [deepgram_to_client_receiver, h]

/-- C9 witness: the theorem applied to a stream whose only message fails to
decode — the iteration raises and the relay still returns normally with the
exception caught. -/
theorem C9_relay_never_raises_witness :
    deepgram_to_client_receiver (fun _ => none)
      [WSMsg.text (Except.error PyExc.jsonDecodeError)] = ⟨[], true⟩ :=
  (C9_relay_never_raises (fun _ => none)
    [WSMsg.text (Except.error PyExc.jsonDecodeError)]).1 [] PyExc.jsonDecodeError rfl

/-- C10: a decoded upstream message that is a JSON object lacking the
`"channel"` key, or whose channel object lacks `"alternatives"`, or whose
first alternative is an object lacking `"transcript"`, yields the empty
transcript through the chain of `.get` defaults; no notification is sent
and the relay continues with the next message. -/
theorem C10_missing_keys_default_empty :
    ∀ (fields : List (String × Json)) (sendFail : Nat → Option PyExc)
      (rest : List WSMsg) (n : Nat),
      (fields.lookup "channel" = none
        ∨ (∃ cf, fields.lookup "channel" = some (Json.obj cf)
            ∧ cf.lookup "alternatives" = none)
        ∨ (∃ cf af tl, fields.lookup "channel" = some (Json.obj cf)
            ∧ cf.lookup "alternatives" = some (Json.arr (Json.obj af :: tl))
            ∧ af.lookup "transcript" = none)) →
      extractTranscript (Json.obj fields) = Except.ok (Json.str "")
      ∧ processText (Json.obj fields) = Except.ok none
      ∧ relayBody sendFail (WSMsg.text (Except.ok (Json.obj fields)) :: rest) n =
          relayBody sendFail rest n := by
  intro fields sendFail rest n h
  have hex : extractTranscript (Json.obj fields) = Except.ok (Json.str "") := by
    rcases h with h1 | ⟨cf, h1, h2⟩ | ⟨cf, af, tl, h1, h2, h3⟩
    · simp [extractTranscript, pyGet, pyIndex0, h1]
    · simp [extractTranscript, pyGet, pyIndex0, h1, h2]
    · simp [extractTranscript, pyGet, pyIndex0, h1, h2, h3]
  have hpt : processText (Json.obj fields) = Except.ok none := by
    obtain ⟨v, hv⟩ := pyGet_obj_ok fields "is_final" (Json.bool false)
    simp [processText, hex, hv, pyStr, pyStrip]
    rfl
  exact ⟨hex, hpt, by simp [relayBody, hpt]⟩

/-- C10 witness: the theorem applied to the concrete message `{}` (no
`"channel"` key at all). -/
theorem C10_missing_keys_witness :
    processText (Json.obj []) = Except.ok none :=
  (C10_missing_keys_default_empty [] (fun _ => none) [] 0 (Or.inl rfl)).2.1

/-- C7: in one session's forwarding loop, the frames successfully passed to
`dg_ws.send_bytes` are exactly the frames received from the client, in the
same order — no drop, no duplicate — whenever the loop does not end in a
send failure; and in every run the received frames are the sent frames
followed by at most one further frame (the single frame whose upstream send
raised and thereby ended the session). -/
theorem C7_audio_frames_forwarded_in_order :
    ∀ (race : List RaceEv),
      ((runLoop race).ending ≠ SessionEnd.raised PyExc.sendError →
        sentUpstream (runLoop race).acts = (runLoop race).received)
      ∧ ∃ tail, (runLoop race).received = sentUpstream (runLoop race).acts ++ tail
          ∧ tail.length ≤ 1 := by
  intro race
  induction race with
  | nil => exact ⟨fun _ => rfl, [], rfl, by simp⟩
  | cons ev rest ih =>
    cases ev with
    | relayDoneAtCheck => exact ⟨fun _ => rfl, [], rfl, by simp⟩
    | relayFirst => exact ⟨fun _ => rfl, [], rfl, by simp⟩
    | recvRaised e => exact ⟨fun _ => rfl, [], rfl, by simp⟩
    | bothDone b ok =>
      cases ok with
      | true => exact ⟨fun _ => by simp [runLoop, sentUpstream], [],
          by simp [runLoop, sentUpstream], by simp⟩
      | false =>
        refine ⟨fun hcontra => absurd ?_ hcontra, [b], by simp [runLoop, sentUpstream], by simp⟩
        simp [runLoop]
    | frameFirst b ok =>
      cases ok with
      | true =>
        obtain ⟨ihl, tail, ht, hlen⟩ := ih
        constructor
        · intro h
          have h' : (runLoop rest).ending ≠ SessionEnd.raised PyExc.sendError := by
            simpa [runLoop] using h
          simp [runLoop, sentUpstream] at ihl ⊢
          exact ihl h'
        · refine ⟨tail, ?_, hlen⟩
          simp [runLoop, sentUpstream] at ht ⊢
          exact ht
      | false =>
        refine ⟨fun hcontra => absurd ?_ hcontra, [b], by simp [runLoop, sentUpstream], by simp⟩
        simp [runLoop]

/-- C7 witness: the theorem applied to a run in which two frames arrive and
then the relay terminates first: both frames are forwarded, in order. -/
theorem C7_audio_frames_witness :
    sentUpstream (runLoop [RaceEv.frameFirst [1] true, RaceEv.frameFirst [2] true,
        RaceEv.relayFirst]).acts =
      (runLoop [RaceEv.frameFirst [1] true, RaceEv.frameFirst [2] true,
        RaceEv.relayFirst]).received :=
  (C7_audio_frames_forwarded_in_order
    [RaceEv.frameFirst [1] true, RaceEv.frameFirst [2] true, RaceEv.relayFirst]).1
    (by decide)

/-- C8: in every run of the forwarding loop, the receive task of the last
iteration is never left pending at loop exit — when the relay terminates
first the pending `client_data_task` is cancelled (lines 101-102), its state
becoming `cancelled`, and this happens within the loop, before the teardown
acts that `runSession` appends; moreover `task.cancel()` on an
already-completed task is a no-op. -/
theorem C8_pending_receive_cancelled :
    ∀ (race rest : List RaceEv),
      (runLoop race).lastRecv ≠ some TaskState.pending
      ∧ (runLoop (RaceEv.relayFirst :: rest)).acts = [Act.createRecvTask, Act.cancelRecv]
      ∧ (runLoop (RaceEv.relayFirst :: rest)).lastRecv = some TaskState.cancelled
      ∧ taskCancel TaskState.completed = TaskState.completed := by
  intro race rest
  refine ⟨?_, rfl, rfl, rfl⟩
  induction race with
  | nil => simp [runLoop]
  | cons ev r ih =>
    cases ev with
    | relayDoneAtCheck => simp [runLoop]
    | relayFirst => simp [runLoop, taskCancel]
    | recvRaised e => simp [runLoop]
    | bothDone b ok => cases ok <;> simp [runLoop]
    | frameFirst b ok =>
      cases ok with
      | true =>
        rcases h : (runLoop r).lastRecv with _ | s
        · simp [runLoop, h]
        · rw [h] at ih
          simp [runLoop, h]
          intro hc
          exact ih (by rw [hc])
      | false => simp [runLoop]

/-- A trace step that is neither session marker leaves the depth check
unchanged. -/
theorem sessionDepthOk_cons_neutral (a : Act) (rest : List Act) (inS : Bool)
    (h1 : a ≠ Act.sessionStart) (h2 : a ≠ Act.sessionEnd) :
    sessionDepthOk (a :: rest) inS = sessionDepthOk rest inS := by
  cases a
  case sessionStart => exact absurd rfl h1
  case sessionEnd => exact absurd rfl h2
  all_goals rfl

/-- A block of marker-free actions leaves the depth check unchanged. -/
theorem sessionDepthOk_append_neutral (xs ys : List Act) (inS : Bool)
    (h : ∀ a ∈ xs, a ≠ Act.sessionStart ∧ a ≠ Act.sessionEnd) :
    sessionDepthOk (xs ++ ys) inS = sessionDepthOk ys inS := by
  induction xs with
  | nil => rfl
  | cons a xs ih =>
    have ha := h a (List.mem_cons_self a xs)
    rw [List.cons_append, sessionDepthOk_cons_neutral a _ inS ha.1 ha.2]
    exact ih fun b hb => h b (List.mem_cons_of_mem a hb)

/-- The forwarding loop emits no session markers. -/
theorem runLoop_acts_neutral (race : List RaceEv) :
    ∀ a ∈ (runLoop race).acts, a ≠ Act.sessionStart ∧ a ≠ Act.sessionEnd := by
  induction race with
  | nil => intro a ha; simp [runLoop] at ha
  | cons ev rest ih =>
    cases ev with
    | relayDoneAtCheck => intro a ha; simp [runLoop] at ha
    | relayFirst =>
      intro a ha
      simp [runLoop] at ha
      rcases ha with rfl | rfl <;> exact ⟨by simp, by simp⟩
    | recvRaised e =>
      intro a ha
      simp [runLoop] at ha
      subst ha; exact ⟨by simp, by simp⟩
    | bothDone b ok =>
      cases ok with
      | true =>
        intro a ha
        simp [runLoop] at ha
        rcases ha with rfl | rfl <;> exact ⟨by simp, by simp⟩
      | false =>
        intro a ha
        simp [runLoop] at ha
        subst ha; exact ⟨by simp, by simp⟩
    | frameFirst b ok =>
      cases ok with
      | true =>
        intro a ha
        simp [runLoop] at ha
        rcases ha with rfl | rfl | hmem
        · exact ⟨by simp, by simp⟩
        · exact ⟨by simp, by simp⟩
        · exact ih a hmem
      | false =>
        intro a ha
        simp [runLoop] at ha
        subst ha; exact ⟨by simp, by simp⟩

/-- The teardown block emits no session markers. -/
theorem teardown_acts_neutral (rs rd de dc : Bool) (cu ch : Option PyExc) :
    ∀ a ∈ (teardown rs rd de dc cu ch).1, a ≠ Act.sessionStart ∧ a ≠ Act.sessionEnd := by
  rcases cu with _ | e <;> rcases ch with _ | e2 <;>
    cases rs <;> cases rd <;> cases de <;> cases dc <;> simp [teardown]

/-- The interior of a session trace (everything between the two markers)
contains no session markers. -/
theorem sessionBody_acts_neutral (scr : SessionScript) :
    ∀ a ∈ (sessionBody scr).1, a ≠ Act.sessionStart ∧ a ≠ Act.sessionEnd := by
  intro a ha
  unfold sessionBody at ha
  rcases hc : scr.connect with _ | e <;> rw [hc] at ha <;> simp at ha
  · rcases ha with rfl | rfl | hm | hm
    · exact ⟨by simp, by simp⟩
    · exact ⟨by simp, by simp⟩
    · exact runLoop_acts_neutral scr.race a hm
    · exact teardown_acts_neutral _ _ _ _ _ _ a hm
  · rcases ha with rfl | hm
    · exact ⟨by simp, by simp⟩
    · exact teardown_acts_neutral _ _ _ _ _ _ a hm

/-- A complete session trace prepended to any continuation passes the depth
check exactly when the continuation does: one `sessionStart`, a marker-free
interior, one `sessionEnd`. -/
theorem runSession_depth (scr : SessionScript) (ys : List Act) :
    sessionDepthOk ((runSession scr).1 ++ ys) false = sessionDepthOk ys false := by
  show sessionDepthOk
    ((Act.sessionStart :: ((sessionBody scr).1 ++ [Act.sessionEnd])) ++ ys) false = _
  rw [List.cons_append]
  show sessionDepthOk (((sessionBody scr).1 ++ [Act.sessionEnd]) ++ ys) true = _
  rw [List.append_assoc,
    sessionDepthOk_append_neutral _ _ true (sessionBody_acts_neutral scr)]
  rfl

/-- C6: on every event script, the endpoint's trace keeps session nesting
depth at most one: sessions never overlap, because the outer loop invokes
`runSession` synchronously — it does not reach the next `receive_text`
until the session, teardown included, has returned. -/
theorem C6_single_session_at_a_time :
    ∀ (evs : List OuterEv), sessionDepthOk (websocket_endpoint evs).1 false = true := by
  intro evs
  induction evs with
  | nil => rfl
  | cons ev rest ih =>
    cases ev with
    | disconnected => rfl
    | text payload scr =>
      rcases payload with e | j
      · rfl
      · cases j with
        | obj fields =>
          by_cases hs : actionIsStart fields = true
          · rcases hr : (runSession scr).2 with _ | e
            · have heq : websocket_endpoint
                  (OuterEv.text (Except.ok (Json.obj fields)) scr :: rest) =
                  ((runSession scr).1 ++ (websocket_endpoint rest).1,
                    (websocket_endpoint rest).2) := by
                simp [websocket_endpoint, hs, hr]
              rw [heq, runSession_depth]
              exact ih
            · have heq : (websocket_endpoint
                  (OuterEv.text (Except.ok (Json.obj fields)) scr :: rest)).1 =
                  (runSession scr).1 := by
                simp [websocket_endpoint, hs, hr]
              rw [heq]
              have h2 := runSession_depth scr []
              rw [List.append_nil] at h2
              rw [h2]
              rfl
          · have heq : websocket_endpoint
                (OuterEv.text (Except.ok (Json.obj fields)) scr :: rest) =
                websocket_endpoint rest := by
              simp [websocket_endpoint, hs]
            rw [heq]
            exact ih
        | null => rfl
        | bool b => rfl
        | num n => rfl
        | str s => rfl
        | arr l => rfl
